import Mathlib

/-!
Verification of the twin-error match-sampling simulation core (`dgp.py`,
`estimators.py`): a shallow embedding of the CPD builder, the graph
template and the error-model assembler over exact rationals, with the
spec's correctness properties settled as theorems.
-/

namespace MatchSampling

/-- Shallow embedding of a `TabularCPD` as constructed in `dgp.py`: a named
binary variable, a 2 x (prod of evidence cards) table of probabilities
(rows indexed by the variable's value, columns by the joint evidence
assignment, first-listed evidence slowest-varying), and the evidence list. -/
structure TabularCPD where
  varname : String
  variable_card : Nat
  values : List (List ℚ)
  evidence : List String := []
  evidence_card : List Nat := []
deriving DecidableEq

/-- Column index of a joint evidence assignment, first-listed evidence
slowest-varying (pgmpy's column convention). -/
def colIndex : List Nat → List Nat → Nat
  | _ :: cs, v :: vs => v * cs.prod + colIndex cs vs
  | _, _ => 0

/-- The table entry P(variable = val | evidence assignment ev); 0 when the
indices fall outside the table. -/
def cpdProb (cpd : TabularCPD) (val : Nat) (ev : List Nat) : ℚ :=
  (cpd.values.getD val []).getD (colIndex cpd.evidence_card ev) 0

/-- Sum of column j of the table. -/
def colSum (cpd : TabularCPD) (j : Nat) : ℚ :=
  (cpd.values.map (fun row => row.getD j 0)).sum

/-- The fixed edge list of the twin-error graph (`create_twin_error_graph`). -/
def create_twin_error_graph : List (String × String) :=
  [("C", "A"),
   ("C", "Y"),
   ("A", "Y"),
   ("C1", "A1"),
   ("C1", "Y1"),
   ("A1", "Y1"),
   ("C1", "C_obs"),
   ("C", "C_obs"),
   ("A", "A_obs"),
   ("A1", "A_obs"),
   ("Y", "Y_obs"),
   ("Y1", "Y_obs"),
   ("E", "A_obs"),
   ("E", "C_obs"),
   ("E", "Y_obs")]

/-- The nodes the spec's data model declares (C, A, Y; C1, A1, Y1; E; the
three observed variables). -/
def declared_nodes : List String :=
  ["C", "A", "Y", "C1", "A1", "Y1", "E", "C_obs", "A_obs", "Y_obs"]

/-- p(Y(a=1) = 1) in `create_statins_stroke_cpds`. -/
def po_Y_1 : ℚ := 24 / 1000

/-- p(Y(a=0) = 1) in `create_statins_stroke_cpds`. -/
def po_Y_0 : ℚ := 3 / 100

/-- p(C = 0) in `create_statins_stroke_cpds`. -/
def pC : ℚ := 1 / 2

/-- p(A = 1 | C = 0) in `create_statins_stroke_cpds`. -/
def pA1_C0 : ℚ := 2 / 10

/-- p(A = 1 | C = 1) in `create_statins_stroke_cpds`. -/
def pA1_C1 : ℚ := 3 / 10

def pY1_A1C0 (confounding_strength : ℚ) : ℚ := po_Y_1 * (1 + confounding_strength / pC)

def pY1_A1C1 (confounding_strength : ℚ) : ℚ := po_Y_1 * (1 - confounding_strength / (1 - pC))

def pY1_A0C0 (confounding_strength : ℚ) : ℚ := po_Y_0 * (1 + confounding_strength / pC)

def pY1_A0C1 (confounding_strength : ℚ) : ℚ := po_Y_0 * (1 - confounding_strength / (1 - pC))

/-- The dict `{"A": cpd_a, "C": cpd_c, "Y": cpd_y}` of base CPDs. -/
structure BaseCpds where
  A : TabularCPD
  C : TabularCPD
  Y : TabularCPD

/-- Embedding of `create_statins_stroke_cpds`. -/
def create_statins_stroke_cpds (confounding_strength : ℚ) : BaseCpds :=
  let cpd_c : TabularCPD :=
    { varname := "C", variable_card := 2, values := [[pC], [1 - pC]] }
  let cpd_a : TabularCPD :=
    { varname := "A", variable_card := 2,
      values := [[1 - pA1_C0, 1 - pA1_C1], [pA1_C0, pA1_C1]],
      evidence := ["C"], evidence_card := [2] }
  let cpd_y : TabularCPD :=
    { varname := "Y", variable_card := 2,
      values :=
        [[1 - pY1_A0C0 confounding_strength, 1 - pY1_A0C1 confounding_strength,
          1 - pY1_A1C0 confounding_strength, 1 - pY1_A1C1 confounding_strength],
         [pY1_A0C0 confounding_strength, pY1_A0C1 confounding_strength,
          pY1_A1C0 confounding_strength, pY1_A1C1 confounding_strength]],
      evidence := ["A", "C"], evidence_card := [2, 2] }
  { A := cpd_a, C := cpd_c, Y := cpd_y }

/-- Base CPDs with arbitrary entries, in exactly the table layout
`create_statins_stroke_cpds` uses: `c0 = P(C=0)`, `aC0/aC1 = P(A=1|C=c)`,
`yij = P(Y=1|A=i,C=j)`. This is the general "valid base CPD set" shape
accepted by `create_twin_error_model`. -/
def mkBaseCpds (c0 aC0 aC1 y00 y01 y10 y11 : ℚ) : BaseCpds :=
  { A := { varname := "A", variable_card := 2,
           values := [[1 - aC0, 1 - aC1], [aC0, aC1]],
           evidence := ["C"], evidence_card := [2] },
    C := { varname := "C", variable_card := 2, values := [[c0], [1 - c0]] },
    Y := { varname := "Y", variable_card := 2,
           values := [[1 - y00, 1 - y01, 1 - y10, 1 - y11], [y00, y01, y10, y11]],
           evidence := ["A", "C"], evidence_card := [2, 2] } }

/-- CPD of the duplicate covariate C1: same values as C's CPD. -/
def cpd_c1 (cpds : BaseCpds) : TabularCPD :=
  { varname := "C1", variable_card := 2, values := cpds.C.values }

/-- CPD of the duplicate treatment A1: same values as A's CPD, evidence C1. -/
def cpd_a1 (cpds : BaseCpds) : TabularCPD :=
  { varname := "A1", variable_card := 2, values := cpds.A.values,
    evidence := ["C1"], evidence_card := [2] }

/-- CPD of the duplicate outcome Y1: same values as Y's CPD, evidence (A1, C1). -/
def cpd_y1 (cpds : BaseCpds) : TabularCPD :=
  { varname := "Y1", variable_card := 2, values := cpds.Y.values,
    evidence := ["A1", "C1"], evidence_card := [2, 2] }

/-- CPD of the error indicator: P(E = 1) = error_rate. -/
def cpd_e (error_rate : ℚ) : TabularCPD :=
  { varname := "E", variable_card := 2, values := [[1 - error_rate], [error_rate]] }

/-- Mixing CPD of the observed covariate, evidence (E, C1, C). -/
def cpd_c_obs : TabularCPD :=
  { varname := "C_obs", variable_card := 2,
    values := [[1, 0, 1, 0, 1, 0, 1, 0], [0, 1, 0, 1, 0, 1, 0, 1]],
    evidence := ["E", "C1", "C"], evidence_card := [2, 2, 2] }

/-- Mixing CPD of the observed outcome, evidence (E, Y1, Y). -/
def cpd_y_obs : TabularCPD :=
  { varname := "Y_obs", variable_card := 2,
    values := [[1, 0, 1, 0, 1, 1, 0, 0], [0, 1, 0, 1, 0, 0, 1, 1]],
    evidence := ["E", "Y1", "Y"], evidence_card := [2, 2, 2] }

/-- Mixing CPD of the observed treatment, evidence (E, A1, A). -/
def cpd_a_obs : TabularCPD :=
  { varname := "A_obs", variable_card := 2,
    values := [[1, 0, 1, 0, 1, 1, 0, 0], [0, 1, 0, 1, 0, 0, 1, 1]],
    evidence := ["E", "A1", "A"], evidence_card := [2, 2, 2] }

/-- A Bayesian network: the edge list plus one CPD per node. -/
structure BayesianNetwork where
  edges : List (String × String)
  cpds : List TabularCPD

/-- Embedding of `create_twin_error_model`: derives the duplicate CPDs, the
error-indicator CPD and the three observation-mixing CPDs, and merges them
with the base CPDs into a model over the given graph (the CPD list keeps
the source's dict-merge order A, C, Y, C1, A1, Y1, E, A_obs, C_obs, Y_obs). -/
def create_twin_error_model (graph : List (String × String)) (cpds : BaseCpds)
    (error_rate : ℚ) : BayesianNetwork :=
  { edges := graph,
    cpds := [cpds.A, cpds.C, cpds.Y, cpd_c1 cpds, cpd_a1 cpds, cpd_y1 cpds,
             cpd_e error_rate, cpd_a_obs, cpd_c_obs, cpd_y_obs] }

/-- Factorized joint probability of a full assignment under a Bayesian
network: the product over its CPDs of P(var = asg var | evidence = asg ev). -/
def jointProb (m : BayesianNetwork) (asg : String → Nat) : ℚ :=
  (m.cpds.map (fun cpd => cpdProb cpd (asg cpd.varname) (cpd.evidence.map asg))).prod

/-- An assignment of the nine twin-error variables (and 0 elsewhere). -/
def asg10 (c a y c1 a1 y1 e co ao yo : Nat) : String → Nat := fun s =>
  if s = "C" then c
  else if s = "A" then a
  else if s = "Y" then y
  else if s = "C1" then c1
  else if s = "A1" then a1
  else if s = "Y1" then y1
  else if s = "E" then e
  else if s = "C_obs" then co
  else if s = "A_obs" then ao
  else if s = "Y_obs" then yo
  else 0

/-- Sum of a function over the two values of a binary variable. -/
def sum2 (f : Nat → ℚ) : ℚ := f 0 + f 1

/-- Marginal joint distribution of (A_obs, C_obs, Y_obs) in a twin-error
model: the full joint summed over the seven latent variables. -/
def jointObs (m : BayesianNetwork) (ao co yo : Nat) : ℚ :=
  sum2 fun c => sum2 fun a => sum2 fun y => sum2 fun c1 => sum2 fun a1 =>
    sum2 fun y1 => sum2 fun e => jointProb m (asg10 c a y c1 a1 y1 e co ao yo)

/-- Joint distribution of (A, C, Y) under the 3-node causal sub-DAG
C→A, C→Y, A→Y with the given base CPDs. -/
def jointACY (cpds : BaseCpds) (a c y : Nat) : ℚ :=
  cpdProb cpds.C c [] * cpdProb cpds.A a [c] * cpdProb cpds.Y y [a, c]

/-- Embedding of `compute_or` from `estimators.py`. -/
def compute_or (y0 y1 : ℚ) : ℚ := y1 * (1 - y0) / ((1 - y1) * y0)

/-- Directed reachability along a nonempty path of edges: the graph has a
directed cycle exactly when some node reaches itself. -/
inductive Reaches (es : List (String × String)) : String → String → Prop
  | single {a b : String} : (a, b) ∈ es → Reaches es a b
  | cons {a b c : String} : (a, b) ∈ es → Reaches es b c → Reaches es a c

/-- A topological rank on the twin-error nodes: every edge of the template
goes from a lower-ranked node to a higher-ranked one. -/
def nodeRank (s : String) : Nat :=
  if s = "C" ∨ s = "C1" ∨ s = "E" then 0
  else if s = "A" ∨ s = "A1" then 1
  else if s = "Y" ∨ s = "Y1" then 2
  else 3

/-- Every edge of the template strictly increases `nodeRank`. -/
theorem edge_rank_lt (p : String × String) (hp : p ∈ create_twin_error_graph) :
    nodeRank p.1 < nodeRank p.2 := by
  fin_cases hp <;> decide

/-- Reachability in the template strictly increases `nodeRank`. -/
theorem reaches_rank_lt (x y : String)
    (h : Reaches create_twin_error_graph x y) : nodeRank x < nodeRank y := by
  induction h with
  | single hab => exact edge_rank_lt _ hab
  | cons hab _ ih => exact lt_trans (edge_rank_lt _ hab) ih

set_option maxHeartbeats 1000000 in
/-- Reduction of the factorized joint of the assembled twin-error model at a
full assignment to the product of its ten CPD entries. -/
theorem jointProb_model_eq (c0 aC0 aC1 y00 y01 y10 y11 er : ℚ)
    (c a y c1 a1 y1 e co ao yo : Nat) :
    jointProb (create_twin_error_model create_twin_error_graph
        (mkBaseCpds c0 aC0 aC1 y00 y01 y10 y11) er)
        (asg10 c a y c1 a1 y1 e co ao yo)
      = cpdProb (mkBaseCpds c0 aC0 aC1 y00 y01 y10 y11).A a [c]
        * cpdProb (mkBaseCpds c0 aC0 aC1 y00 y01 y10 y11).C c []
        * cpdProb (mkBaseCpds c0 aC0 aC1 y00 y01 y10 y11).Y y [a, c]
        * cpdProb (cpd_c1 (mkBaseCpds c0 aC0 aC1 y00 y01 y10 y11)) c1 []
        * cpdProb (cpd_a1 (mkBaseCpds c0 aC0 aC1 y00 y01 y10 y11)) a1 [c1]
        * cpdProb (cpd_y1 (mkBaseCpds c0 aC0 aC1 y00 y01 y10 y11)) y1 [a1, c1]
        * cpdProb (cpd_e er) e []
        * cpdProb cpd_a_obs ao [e, a1, a]
        * cpdProb cpd_c_obs co [e, c1, c]
        * cpdProb cpd_y_obs yo [e, y1, y] := by
  simp [jointProb, create_twin_error_model, asg10, cpd_c1, cpd_a1, cpd_y1,
    cpd_e, cpd_a_obs, cpd_c_obs, cpd_y_obs, mkBaseCpds]
  ring

set_option maxHeartbeats 2000000 in
/-- C1: for every valid base CPD set (for C, A, Y) and hence every
confounding_strength, the model assembled by `create_twin_error_model` with
error_rate = 0 has a joint distribution over (A_obs, C_obs, Y_obs) equal to
the joint distribution over (A, C, Y) defined by the base CPDs on the
3-node causal sub-DAG C→A, C→Y, A→Y. -/
theorem zero_error_model_equals_causal_model
    (c0 aC0 aC1 y00 y01 y10 y11 : ℚ)
    (hc0 : 0 ≤ c0 ∧ c0 ≤ 1) (ha0 : 0 ≤ aC0 ∧ aC0 ≤ 1) (ha1 : 0 ≤ aC1 ∧ aC1 ≤ 1)
    (hy00 : 0 ≤ y00 ∧ y00 ≤ 1) (hy01 : 0 ≤ y01 ∧ y01 ≤ 1)
    (hy10 : 0 ≤ y10 ∧ y10 ≤ 1) (hy11 : 0 ≤ y11 ∧ y11 ≤ 1)
    (ao co yo : Nat) (hao : ao < 2) (hco : co < 2) (hyo : yo < 2) :
    jointObs (create_twin_error_model create_twin_error_graph
        (mkBaseCpds c0 aC0 aC1 y00 y01 y10 y11) 0) ao co yo
      = jointACY (mkBaseCpds c0 aC0 aC1 y00 y01 y10 y11) ao co yo := by
  interval_cases ao <;> interval_cases co <;> interval_cases yo <;>
    (simp only [jointObs, sum2, jointProb_model_eq];
     simp [cpdProb, colIndex, cpd_c1, cpd_a1, cpd_y1, cpd_e, cpd_a_obs,
       cpd_c_obs, cpd_y_obs, mkBaseCpds, jointACY];
     ring)

/-- Witness for C1 at a concrete valid base CPD set and the cell
(A_obs, C_obs, Y_obs) = (0, 0, 0). -/
theorem zero_error_model_equals_causal_model_witness :
    jointObs (create_twin_error_model create_twin_error_graph
        (mkBaseCpds (1/2) (2/10) (3/10) (42/1000) (6/1000) (336/10000) (48/10000)) 0) 0 0 0
      = jointACY (mkBaseCpds (1/2) (2/10) (3/10) (42/1000) (6/1000) (336/10000) (48/10000)) 0 0 0 :=
  zero_error_model_equals_causal_model (1/2) (2/10) (3/10) (42/1000) (6/1000)
    (336/10000) (48/10000)
    (by norm_num) (by norm_num) (by norm_num) (by norm_num) (by norm_num)
    (by norm_num) (by norm_num) 0 0 0
    (by norm_num) (by norm_num) (by norm_num)

/-- Counterexample to C2: in the model assembled with error_rate = 1, the
C_obs mixing CPD does not make C_obs equal its duplicate C1: at the
evidence assignment (E = 1, C1 = 1, C = 0), P(C_obs = 1) is 0, not 1. -/
theorem error_rate_one_cobs_not_duplicate :
    cpd_c_obs ∈ (create_twin_error_model create_twin_error_graph
        (create_statins_stroke_cpds (1/5)) 1).cpds
    ∧ cpdProb cpd_c_obs 1 [1, 1, 0] = 0 := by
  refine ⟨by simp [create_twin_error_model], by rfl⟩

/-- C2 (amended): in the model assembled with error_rate = 1, the observed
treatment and outcome equal their duplicate variants (A1, Y1) with
probability 1, independent of the true value, for every evidence
assignment with E = 1; the observed covariate C_obs instead equals the
true covariate C with probability 1. -/
theorem error_rate_one_duplicate_selection (base : BaseCpds) (tw tr v : Fin 2) :
    cpd_a_obs ∈ (create_twin_error_model create_twin_error_graph base 1).cpds
    ∧ cpd_y_obs ∈ (create_twin_error_model create_twin_error_graph base 1).cpds
    ∧ cpd_c_obs ∈ (create_twin_error_model create_twin_error_graph base 1).cpds
    ∧ cpdProb cpd_a_obs v [1, tw, tr] = (if v = tw then 1 else 0)
    ∧ cpdProb cpd_y_obs v [1, tw, tr] = (if v = tw then 1 else 0)
    ∧ cpdProb cpd_c_obs v [1, tw, tr] = (if v = tr then 1 else 0) := by
  refine ⟨by simp [create_twin_error_model], by simp [create_twin_error_model],
    by simp [create_twin_error_model], ?_, ?_, ?_⟩ <;>
    fin_cases tw <;> fin_cases tr <;> fin_cases v <;> rfl

/-- C3: in the mixing CPDs of A_obs and Y_obs, with evidence enumerated in
order (E, twin, true) and E slowest-varying, the E = 0 columns are a
deterministic identity map from the true variable and the E = 1 columns a
deterministic identity map from the twin variable. -/
theorem obs_mixing_tables_identity (e tw tr v : Fin 2) :
    cpd_a_obs.evidence = ["E", "A1", "A"]
    ∧ cpd_y_obs.evidence = ["E", "Y1", "Y"]
    ∧ cpdProb cpd_a_obs v [e, tw, tr]
        = (if e = 0 then (if v = tr then 1 else 0) else (if v = tw then 1 else 0))
    ∧ cpdProb cpd_y_obs v [e, tw, tr]
        = (if e = 0 then (if v = tr then 1 else 0) else (if v = tw then 1 else 0)) := by
  refine ⟨rfl, rfl, ?_, ?_⟩ <;>
    fin_cases e <;> fin_cases tw <;> fin_cases tr <;> fin_cases v <;> rfl

/-- C4: for every confounding_strength, the outcome CPD built by
`create_statins_stroke_cpds` has P(Y=1 | A=a, C=0) = po_Y_a * (1 +
confounding_strength / pC) and P(Y=1 | A=a, C=1) = po_Y_a * (1 -
confounding_strength / (1 - pC)), columns ordered by evidence (A, C), and
the complement probability P(Y=0 | A=a, C=c) in the first row. -/
theorem outcome_cpd_confounding_formula (cs : ℚ) (a c : Fin 2) :
    (create_statins_stroke_cpds cs).Y.evidence = ["A", "C"]
    ∧ cpdProb (create_statins_stroke_cpds cs).Y 1 [a, c]
        = (if a = 1 then po_Y_1 else po_Y_0)
          * (if c = 0 then 1 + cs / pC else 1 - cs / (1 - pC))
    ∧ cpdProb (create_statins_stroke_cpds cs).Y 0 [a, c]
        = 1 - cpdProb (create_statins_stroke_cpds cs).Y 1 [a, c] := by
  refine ⟨rfl, ?_, ?_⟩ <;>
    fin_cases a <;> fin_cases c <;>
      simp [create_statins_stroke_cpds, cpdProb, colIndex,
        pY1_A0C0, pY1_A0C1, pY1_A1C0, pY1_A1C1]

/-- C5: when confounding_strength = 0, the outcome CPD satisfies
P(Y=1 | A=1, C=c) = po_Y_1 and P(Y=1 | A=0, C=c) = po_Y_0 for both values
of C: the conditional outcome probability does not depend on C. -/
theorem zero_confounding_outcome_marginal (a c : Fin 2) :
    cpdProb (create_statins_stroke_cpds 0).Y 1 [a, c]
      = (if a = 1 then po_Y_1 else po_Y_0) := by
  fin_cases a <;> fin_cases c <;>
    simp [create_statins_stroke_cpds, cpdProb, colIndex,
      pY1_A0C0, pY1_A0C1, pY1_A1C0, pY1_A1C1]

/-- C6: for every choice of the scalar parameters, every CPD of the model
assembled by `create_twin_error_model` from `create_statins_stroke_cpds`
(the CPDs of C, A, Y, C1, A1, Y1, E, C_obs, A_obs, Y_obs) has every column
of its table summing to exactly 1. -/
theorem cpd_columns_sum_to_one (cs er : ℚ) (cpd : TabularCPD)
    (hmem : cpd ∈ (create_twin_error_model create_twin_error_graph
        (create_statins_stroke_cpds cs) er).cpds)
    (j : Nat) (hj : j < cpd.evidence_card.prod) :
    colSum cpd j = 1 := by
  simp [create_twin_error_model] at hmem
  rcases hmem with rfl | rfl | rfl | rfl | rfl | rfl | rfl | rfl | rfl | rfl <;>
    first
      | (norm_num [create_statins_stroke_cpds, cpd_c1, cpd_a1, cpd_y1, cpd_e,
           cpd_c_obs, cpd_a_obs, cpd_y_obs] at hj;
         subst hj;
         simp [colSum, create_statins_stroke_cpds, cpd_c1, cpd_a1, cpd_y1, cpd_e,
           cpd_c_obs, cpd_a_obs, cpd_y_obs, pA1_C0, pA1_C1, pC];
         try ring)
      | (norm_num [create_statins_stroke_cpds, cpd_c1, cpd_a1, cpd_y1, cpd_e,
           cpd_c_obs, cpd_a_obs, cpd_y_obs] at hj;
         interval_cases j <;>
           (simp [colSum, create_statins_stroke_cpds, cpd_c1, cpd_a1, cpd_y1, cpd_e,
              cpd_c_obs, cpd_a_obs, cpd_y_obs, pA1_C0, pA1_C1, pC];
            try ring))

/-- Witness for C6: column 0 of the C_obs mixing CPD sums to 1. -/
theorem cpd_columns_sum_to_one_witness : colSum cpd_c_obs 0 = 1 :=
  cpd_columns_sum_to_one 0 0 cpd_c_obs (by simp [create_twin_error_model]) 0
    (by norm_num [cpd_c_obs])

/-- Counterexample to C7: the edge list of `create_twin_error_graph` uses 10
distinct node names, so its endpoints cannot all lie among 9 declared node
names. -/
theorem graph_node_count_not_nine :
    ((create_twin_error_graph.map Prod.fst
        ++ create_twin_error_graph.map Prod.snd).toFinset).card = 10
    ∧ ¬ ∃ S : Finset String, S.card = 9
        ∧ ∀ p ∈ create_twin_error_graph, p.1 ∈ S ∧ p.2 ∈ S := by
  constructor
  · rfl
  · rintro ⟨S, hcard, hmem⟩
    have hsub : (create_twin_error_graph.map Prod.fst
        ++ create_twin_error_graph.map Prod.snd).toFinset ⊆ S := by
      intro x hx
      simp only [List.toFinset_append, Finset.mem_union, List.mem_toFinset,
        List.mem_map] at hx
      rcases hx with ⟨p, hp, rfl⟩ | ⟨p, hp, rfl⟩
      · exact (hmem p hp).1
      · exact (hmem p hp).2
    have h10 : (10 : Nat) ≤ 9 := by
      calc (10 : Nat)
          = ((create_twin_error_graph.map Prod.fst
              ++ create_twin_error_graph.map Prod.snd).toFinset).card := by rfl
        _ ≤ S.card := Finset.card_le_card hsub
        _ = 9 := hcard
    omega

/-- C7 (amended): the edge list returned by `create_twin_error_graph`
contains exactly 15 ordered (parent, child) pairs, forms a directed graph
with no directed cycles (no node reaches itself along edges), and every
parent or child name appearing in it is one of the 10 declared node names
C, A, Y, C1, A1, Y1, E, C_obs, A_obs, Y_obs. -/
theorem graph_fifteen_edges_acyclic_declared :
    create_twin_error_graph.length = 15
    ∧ (∀ p ∈ create_twin_error_graph, p.1 ∈ declared_nodes ∧ p.2 ∈ declared_nodes)
    ∧ ∀ x : String, ¬ Reaches create_twin_error_graph x x := by
  refine ⟨rfl, by decide, fun x hx => ?_⟩
  exact lt_irrefl _ (reaches_rank_lt x x hx)

/-- Counterexample to C8: at confounding_strength = 20 the computed outcome
probability P(Y=1 | A=0, C=0) is 123/100, strictly above 1, yet CPD
construction completes and stores this value unclamped; likewise
error_rate = 2 is stored as P(E=1) = 2 and the model is still assembled.
No invalid-parameter error exists in the code. -/
theorem out_of_range_probability_not_rejected :
    cpdProb (create_statins_stroke_cpds 20).Y 1 [0, 0] = 123 / 100
    ∧ (1 : ℚ) < 123 / 100
    ∧ cpdProb (cpd_e 2) 1 [] = 2
    ∧ cpd_e 2 ∈ (create_twin_error_model create_twin_error_graph
        (create_statins_stroke_cpds 20) 2).cpds := by
  refine ⟨?_, by norm_num, by norm_num [cpd_e, cpdProb, colIndex],
    by simp [create_twin_error_model]⟩
  norm_num [create_statins_stroke_cpds, cpdProb, colIndex, pY1_A0C0, po_Y_0, pC]

/-- C8 (amended): `create_statins_stroke_cpds` and `create_twin_error_model`
perform no parameter validation: for every confounding_strength and every
error_rate, the computed probabilities are placed into the CPD tables
exactly as computed, never clamped and never rejected. -/
theorem parameters_used_unvalidated (cs er : ℚ) :
    cpdProb (create_statins_stroke_cpds cs).Y 1 [0, 0] = po_Y_0 * (1 + cs / pC)
    ∧ cpdProb (cpd_e er) 1 [] = er
    ∧ cpd_e er ∈ (create_twin_error_model create_twin_error_graph
        (create_statins_stroke_cpds cs) er).cpds := by
  refine ⟨?_, by norm_num [cpd_e, cpdProb, colIndex],
    by simp [create_twin_error_model]⟩
  simp [create_statins_stroke_cpds, cpdProb, colIndex, pY1_A0C0]

/-- C9: `compute_or` returns y1*(1-y0) / ((1-y1)*y0), and applied to
y0 = 3/100 and y1 = 24/1000 the result lies in [79/100, 80/100]. -/
theorem compute_or_formula_and_value :
    (∀ y0 y1 : ℚ, compute_or y0 y1 = y1 * (1 - y0) / ((1 - y1) * y0))
    ∧ 79 / 100 ≤ compute_or (3/100) (24/1000)
    ∧ compute_or (3/100) (24/1000) ≤ 80 / 100 := by
  refine ⟨fun y0 y1 => rfl, ?_, ?_⟩ <;> norm_num [compute_or]

/-- C10: in every model assembled by `create_twin_error_model`, for every
error_rate, the C_obs mixing CPD makes C_obs equal the true covariate C
with probability 1 under every joint assignment of (E, C1): the observed
covariate is never substituted by the duplicate C1, even when E = 1. -/
theorem cobs_equals_true_covariate (base : BaseCpds) (er : ℚ) (e c1 c v : Fin 2) :
    cpd_c_obs ∈ (create_twin_error_model create_twin_error_graph base er).cpds
    ∧ cpdProb cpd_c_obs v [e, c1, c] = (if v = c then 1 else 0) := by
  refine ⟨by simp [create_twin_error_model], ?_⟩
  fin_cases e <;> fin_cases c1 <;> fin_cases c <;> fin_cases v <;> rfl

end MatchSampling
